import Mathlib

/-!
Verification development for the Twitter client base module
(`src/core/src/clients/twitter/base.ts`): the serialized request queue with
backoff (`RequestQueue`), the two-tier tweet cache (`cacheTweet` /
`getCachedTweet`), the search/timeline fetchers (`fetchSearchTweets` /
`fetchHomeTimeline`) and the timeline reconciliation pass
(`populateTimeline`).  Each TypeScript function is shallowly embedded as an
executable Lean definition; external effects (the remote API, the
filesystem, the durable memory store) are passed in explicitly as values or
outcome parameters.
-/

/-! ## Request queue (`RequestQueue`, base.ts lines 60-108)

An operation submitted through `add` is wrapped in a closure
`async () => { try { resolve(await request()) } catch (e) { reject(e) } }`.
The wrapper settles the caller's promise and, crucially, catches every
error of the underlying request, so the wrapper itself always resolves.
`processQueue` shifts wrapped closures one at a time; its `catch` branch
(unshift to the front of the queue, then `exponentialBackoff` on the new
queue length) fires only when the awaited closure throws.

We model a raw request's behaviour as a script of outcomes, one per
execution, and the run of `processQueue` as a fuel-indexed function over a
queue state that records the trace of events and the promise settlements
(first settlement wins, as for a JS promise). -/

/-- Outcome of one execution of a raw request: it resolves or it rejects. -/
inductive Outcome
| ok
| err
deriving DecidableEq, Repr

/-- A queued wrapped operation: the id of the caller's promise and the
script of raw-request outcomes, one per execution (an exhausted script
resolves). -/
structure QOp where
  id : Nat
  script : List Outcome
deriving DecidableEq, Repr

/-- Observable events of the worker loop: an execution of a request (with
the raw outcome), a backoff sleep of a given number of milliseconds, and
the post-operation random delay. -/
inductive QEvent
| exec (id : Nat) (result : Outcome)
| backoff (ms : Nat)
| rand
deriving DecidableEq, Repr

/-- Embeds `exponentialBackoff` (base.ts lines 99-102):
`Math.pow(2, retryCount) * 1000`. -/
def exponentialBackoff (retryCount : Nat) : Nat :=
  2 ^ retryCount * 1000

/-- Outcome of awaiting the wrapped closure built in `add` (base.ts lines
66-73): the wrapper resolves the caller's promise on success and rejects it
on failure, but its `try`/`catch` swallows the error either way, so the
closure itself never throws. -/
def wrapOutcome (_raw : Outcome) : Outcome :=
  Outcome.ok

/-- Settles promise `id` with outcome `o` unless it is already settled
(a JS promise settles exactly once; later settlements are no-ops). -/
def settlePromise (s : List (Nat × Outcome)) (id : Nat) (o : Outcome) :
    List (Nat × Outcome) :=
  if s.any (fun p => p.1 == id) then s else s ++ [(id, o)]

/-- State of a `processQueue` run: the pending queue, the promise
settlements so far (in settlement order), and the event trace. -/
structure QState where
  queue : List QOp
  settled : List (Nat × Outcome)
  trace : List QEvent
deriving DecidableEq, Repr

/-- Embeds the worker loop `processQueue` (base.ts lines 78-97).  Each
iteration shifts the head closure and awaits it; executing the closure
runs the raw request (consuming the head of its script) and settles the
caller's promise with that raw outcome.  If the awaited closure itself
threw, the loop would unshift it and sleep `exponentialBackoff` of the new
queue length; since the wrapper never throws (`wrapOutcome`), that branch
is unreachable.  After every operation the worker sleeps a random delay
(the `rand` event).  Fuel bounds the number of iterations. -/
def processQueue : Nat → QState → QState
| 0, s => s
| Nat.succ fuel, s =>
  match s.queue with
  | [] => s
  | op :: rest =>
    let raw := op.script.headD Outcome.ok
    let settled := settlePromise s.settled op.id raw
    match wrapOutcome raw with
    | Outcome.ok =>
      processQueue fuel
        { queue := rest
          settled := settled
          trace := s.trace ++ [QEvent.exec op.id raw, QEvent.rand] }
    | Outcome.err =>
      let requeued : List QOp := { id := op.id, script := op.script.tail } :: rest
      processQueue fuel
        { queue := requeued
          settled := settled
          trace := s.trace ++ [QEvent.exec op.id raw,
            QEvent.backoff (exponentialBackoff requeued.length), QEvent.rand] }

/-- The ids of the executions recorded in a trace, in order. -/
def execIds (tr : List QEvent) : List Nat :=
  tr.filterMap (fun e =>
    match e with
    | QEvent.exec i _ => some i
    | _ => none)

/-- The raw outcome of the first execution of an operation. -/
def firstOutcome (op : QOp) : Outcome :=
  op.script.headD Outcome.ok

/-- The trace produced by executing the given operations once each, in
order. -/
def onceEachTrace (ops : List QOp) : List QEvent :=
  ops.flatMap (fun op => [QEvent.exec op.id (firstOutcome op), QEvent.rand])

theorem wrapOutcome_ok (o : Outcome) : wrapOutcome o = Outcome.ok := rfl

theorem execIds_append (a b : List QEvent) :
    execIds (a ++ b) = execIds a ++ execIds b := by
  simp [execIds]

theorem execIds_onceEachTrace (ops : List QOp) :
    execIds (onceEachTrace ops) = ops.map QOp.id := by
  induction ops with
  | nil => rfl
  | cons op rest ih =>
    simp [onceEachTrace, execIds] at ih ⊢
    exact ih

/-- Main run lemma: starting from a queue of wrapped operations whose
promises are all unsettled, `processQueue` with fuel equal to the queue
length empties the queue, executing each operation exactly once in
submission order and settling each promise with the raw outcome of its
first (and only) execution. -/
theorem processQueue_run (ops : List QOp) :
    ∀ s0 t0,
      (∀ op ∈ ops, (s0.any (fun p => p.1 == op.id)) = false) →
      (ops.map QOp.id).Nodup →
      processQueue ops.length { queue := ops, settled := s0, trace := t0 }
        = { queue := []
            settled := s0 ++ ops.map (fun op => (op.id, firstOutcome op))
            trace := t0 ++ onceEachTrace ops } := by
  induction ops with
  | nil =>
    intro s0 t0 _ _
    simp [processQueue, onceEachTrace]
  | cons op rest ih =>
    intro s0 t0 hfree hnd
    have hop : (s0.any (fun p => p.1 == op.id)) = false :=
      hfree op (List.mem_cons_self op rest)
    have hsettle :
        settlePromise s0 op.id (op.script.headD Outcome.ok)
          = s0 ++ [(op.id, op.script.headD Outcome.ok)] := by
      simp [settlePromise, hop]
    have hfree' :
        ∀ op2 ∈ rest,
          ((s0 ++ [(op.id, op.script.headD Outcome.ok)]).any (fun p => p.1 == op2.id))
            = false := by
      intro op2 hmem
      have hne : op.id ≠ op2.id := by
        have := hnd
        simp [List.nodup_cons] at this
        intro heq
        exact this.1 op2 hmem heq.symm
      have h2 : (s0.any (fun p => p.1 == op2.id)) = false := hfree op2 (by simp [hmem])
      simp [List.any_append, h2, hne]
    have hnd' : (rest.map QOp.id).Nodup := by
      simp [List.nodup_cons] at hnd
      exact hnd.2
    have hstep :
        processQueue (op :: rest).length { queue := op :: rest, settled := s0, trace := t0 }
          = processQueue rest.length
              { queue := rest
                settled := s0 ++ [(op.id, op.script.headD Outcome.ok)]
                trace := t0 ++ [QEvent.exec op.id (op.script.headD Outcome.ok), QEvent.rand] } := by
      simp only [List.length_cons, processQueue, wrapOutcome]
      rw [hsettle]
    rw [hstep, ih _ _ hfree' hnd']
    simp [onceEachTrace, List.append_assoc, firstOutcome]

/-- The three-operation scenario of the spec's example: A always succeeds,
B's raw request rejects on its first execution and would succeed on a
second one, C always succeeds. -/
def opsABC : List QOp :=
  [{ id := 0, script := [Outcome.ok] },
   { id := 1, script := [Outcome.err, Outcome.ok] },
   { id := 2, script := [Outcome.ok] }]

/-- Tests whether an event is a backoff sleep. -/
def isBackoffEvent (e : QEvent) : Bool :=
  match e with
  | QEvent.backoff _ => true
  | _ => false

/-- C1: the claim fails on the code.  Submitting A, B, C where B's raw
request fails once and would succeed on re-execution does NOT yield
A, B(fail), backoff, B(success), C: the wrapper built in `add` catches the
failure and rejects the caller's promise, and since the wrapper itself
never throws, `processQueue` never re-executes B and never sleeps a
backoff.  The run executes A, B(fail), C, with no backoff event, B's
promise settled with a rejection, and B never re-executed. -/
theorem requestQueue_failed_op_not_retried :
    processQueue opsABC.length { queue := opsABC, settled := [], trace := [] }
      = { queue := []
          settled := [(0, Outcome.ok), (1, Outcome.err), (2, Outcome.ok)]
          trace := [QEvent.exec 0 Outcome.ok, QEvent.rand,
                    QEvent.exec 1 Outcome.err, QEvent.rand,
                    QEvent.exec 2 Outcome.ok, QEvent.rand] } ∧
    List.lookup 1
        (processQueue opsABC.length { queue := opsABC, settled := [], trace := [] }).settled
      = some Outcome.err ∧
    ((processQueue opsABC.length
        { queue := opsABC, settled := [], trace := [] }).trace.filter isBackoffEvent)
      = [] ∧
    execIds (processQueue opsABC.length { queue := opsABC, settled := [], trace := [] }).trace
      = [0, 1, 2] := by
  refine ⟨?_, ?_, ?_, ?_⟩ <;> decide

/-- C4: confirmed.  The queue executes at most one operation at a time (the
run is a single sequential worker loop; the trace is a linear sequence of
atomic executions), and operations with pairwise distinct promise ids are
executed exactly once each, in submission order, with their promises
settled in that same order — in particular FIFO order among never-failing
operations holds and no operation submitted after a failing operation is
skipped. -/
theorem requestQueue_fifo (ops : List QOp) (hnd : (ops.map QOp.id).Nodup) :
    execIds (processQueue ops.length { queue := ops, settled := [], trace := [] }).trace
      = ops.map QOp.id ∧
    (processQueue ops.length { queue := ops, settled := [], trace := [] }).settled
      = ops.map (fun op => (op.id, firstOutcome op)) := by
  have h := processQueue_run ops [] [] (by intro op _; rfl) hnd
  rw [h]
  exact ⟨by simp [execIds_onceEachTrace], by simp⟩

/-- Witness for C4 at the concrete scenario A, B(fails once), C. -/
theorem requestQueue_fifo_witness :
    execIds (processQueue opsABC.length
        { queue := opsABC, settled := [], trace := [] }).trace
      = [0, 1, 2] ∧
    (processQueue opsABC.length { queue := opsABC, settled := [], trace := [] }).settled
      = [(0, Outcome.ok), (1, Outcome.err), (2, Outcome.ok)] :=
  requestQueue_fifo opsABC (by decide)

/-! ## Data model: tweets and media

One `Tweet` structure covers the normalized shape built by
`fetchHomeTimeline` (base.ts lines 330-364) together with the extra fields
(`permanentUrl`, `timestamp`) that search results carry and
`populateTimeline` reads.  Fields that may be absent on the wire are
`Option`s; absent is JS `undefined`/`null`. -/

/-- A media attachment as the normalizer sees it: only its kind tag and an
identifying payload matter here. -/
structure Media where
  type : String
  url : String
deriving DecidableEq, Repr

/-- A tweet in the client's canonical shape. -/
structure Tweet where
  id : String
  name : Option String := none
  username : Option String := none
  text : Option String := none
  inReplyToStatusId : Option String := none
  createdAt : Option String := none
  userId : Option String := none
  conversationId : Option String := none
  hashtags : Option (List String) := none
  mentions : Option (List String) := none
  photos : List Media := []
  thread : List String := []
  urls : Option (List String) := none
  videos : List Media := []
  permanentUrl : Option String := none
  timestamp : Option Nat := none
deriving DecidableEq, Repr

/-! ## Two-tier tweet cache (`cacheTweet` / `getCachedTweet`, base.ts
lines 121-161)

The durable tier is a filesystem; we model a path as its list of segments
after resolution of `..` components, exactly what `path.join` produces.
`__dirname` is the directory of base.ts, i.e. `core/src/clients/twitter`
relative to the repository root.  `cacheTweet` writes under
`path.join(__dirname, "../../../tweetcache", conversationId, id + ".json")`
while `getCachedTweet` scans the glob
`path.join(__dirname, "tweetcache", "*", id + ".json")`. -/

/-- Resolves a relative path against a base directory the way `path.join`
plus normalization does: a `..` segment drops the last segment of the
accumulated path, any other segment is appended. -/
def pathResolve (base : List String) (rel : List String) : List String :=
  rel.foldl (fun acc seg => if seg = ".." then acc.dropLast else acc ++ [seg]) base

/-- Segments of `__dirname` for base.ts: `core/src/clients/twitter`
relative to the repository root. -/
def dirnameSegs : List String := ["core", "src", "clients", "twitter"]

/-- Directory that `cacheTweet` writes into for a given conversation id
(base.ts lines 130-135). -/
def cacheWriteDir (conversationId : String) : List String :=
  pathResolve dirnameSegs ["..", "..", "..", "tweetcache", conversationId]

/-- Base directory of the glob that `getCachedTweet` scans (base.ts lines
146-151): the `*` wildcard ranges over one conversation-directory segment
below this base. -/
def cacheReadBase : List String :=
  pathResolve dirnameSegs ["tweetcache"]

/-- Sets a key in an association list the way `Map.set` / an overwriting
file write does: an existing binding is replaced in place, a new one is
appended. -/
def assocSet {α β : Type} [BEq α] (m : List (α × β)) (k : α) (v : β) :
    List (α × β) :=
  if m.any (fun p => p.1 == k) then
    m.map (fun p => if p.1 == k then (k, v) else p)
  else
    m ++ [(k, v)]

/-- State of the two-tier cache: the in-memory `tweetCache` map and the
durable tier, a map from resolved file paths to the tweet serialized
there (JSON serialization of a tweet record round-trips, so the file
content is modelled as the tweet value itself). -/
structure CacheState where
  mem : List (String × Tweet)
  files : List (List String × Tweet)
deriving DecidableEq, Repr

/-- Outcome of the filesystem operations (`mkdir` + `writeFile`) performed
by a durable cache write. -/
inductive FsOutcome
| ok
| ioError (msg : String)
deriving DecidableEq, Repr

/-- Embeds `cacheTweet` (base.ts lines 125-139).  An undefined tweet is a
logged no-op.  Otherwise the path is built from `conversationId` (building
a path from an undefined segment throws a `TypeError` in `path.join`), the
serialized tweet is written durably — an I/O rejection propagates, in
which case the in-memory map is not touched — and only then is the
in-memory map updated. -/
def cacheTweet (st : CacheState) (tweet : Option Tweet) (fsw : FsOutcome) :
    Except String CacheState :=
  match tweet with
  | none => Except.ok st
  | some tw =>
    match tw.conversationId with
    | none => Except.error "TypeError: the path argument must be a string"
    | some conv =>
      match fsw with
      | FsOutcome.ioError msg => Except.error msg
      | FsOutcome.ok =>
        Except.ok
          { mem := assocSet st.mem tw.id tw
            files := assocSet st.files (cacheWriteDir conv ++ [tw.id ++ ".json"]) tw }

/-- Tests whether a resolved file path matches the lookup glob
`cacheReadBase/*/{fname}`: the path must extend the read base by exactly
one conversation segment followed by the file name. -/
def globMatch (fname : String) (p : List String) : Bool :=
  match p.drop cacheReadBase.length with
  | [_conv, f] => p.take cacheReadBase.length == cacheReadBase && f == fname
  | _ => false

/-- Embeds `getCachedTweet` (base.ts lines 141-161): the in-memory tier is
checked first; on miss, the durable tier is scanned with the wildcard glob
and the first match is parsed, promoted into the in-memory tier (keyed by
the parsed tweet's own id) and returned. -/
def getCachedTweet (st : CacheState) (tweetId : String) :
    CacheState × Option Tweet :=
  match List.lookup tweetId st.mem with
  | some t => (st, some t)
  | none =>
    match (st.files.filter (fun pf => globMatch (tweetId ++ ".json") pf.1)) with
    | [] => (st, none)
    | (_, tw) :: _ => ({ st with mem := assocSet st.mem tw.id tw }, some tw)

/-- A concrete tweet for the cache round-trip scenario. -/
def sampleCachedTweet : Tweet :=
  { id := "1001", conversationId := some "conv1", text := some "hello" }

/-- C2: the claim fails on the code.  Within one process, `cacheTweet`
followed by `getCachedTweet` returns the stored tweet (in-memory hit), but
after a simulated restart (in-memory tier cleared, durable tier intact)
the lookup returns nothing: `cacheTweet` writes below
`__dirname/../../../tweetcache` while `getCachedTweet` scans below
`__dirname/tweetcache`, two different directories, so the durable file is
never found and no promotion can happen. -/
theorem cache_restart_roundtrip_fails :
    ∃ st1,
      cacheTweet { mem := [], files := [] } (some sampleCachedTweet) FsOutcome.ok
        = Except.ok st1 ∧
      (getCachedTweet st1 sampleCachedTweet.id).2 = some sampleCachedTweet ∧
      st1.files ≠ [] ∧
      (getCachedTweet { mem := [], files := st1.files } sampleCachedTweet.id).2 = none ∧
      cacheWriteDir "conv1" ≠ cacheReadBase ++ ["conv1"] := by
  refine ⟨_, rfl, ?_, ?_, ?_, ?_⟩ <;> decide

/-- C8: confirmed.  When the durable write performed by `cacheTweet`
rejects with an I/O error, `cacheTweet` propagates exactly that error to
its caller (there is no `try`/`catch` around `mkdir`/`writeFile`); the
failure is never swallowed. -/
theorem cacheTweet_io_error_propagates (st : CacheState) (tw : Tweet)
    (conv msg : String) (hconv : tw.conversationId = some conv) :
    cacheTweet st (some tw) (FsOutcome.ioError msg) = Except.error msg := by
  simp [cacheTweet, hconv]

/-- Witness for C8 at a concrete cache state, tweet and error. -/
theorem cacheTweet_io_error_propagates_witness :
    cacheTweet { mem := [], files := [] } (some sampleCachedTweet)
        (FsOutcome.ioError "EACCES") = Except.error "EACCES" :=
  cacheTweet_io_error_propagates { mem := [], files := [] } sampleCachedTweet
    "conv1" "EACCES" rfl

/-- C9: confirmed.  Calling `cacheTweet` with an undefined tweet is a
silent no-op: for every cache state and every filesystem behaviour it
returns successfully, leaves the in-memory map unchanged and writes no
durable file. -/
theorem cacheTweet_undefined_noop (st : CacheState) (fsw : FsOutcome) :
    cacheTweet st none fsw = Except.ok st := by
  simp [cacheTweet]

/-! ## Timeline normalizer (`fetchHomeTimeline`, base.ts lines 320-370)

A raw timeline entry may carry a logical field in a flattened position
(e.g. `tweet.text`) or nested under the legacy shape
(e.g. `tweet.legacy.full_text`); the normalizer combines them with the JS
nullish-coalescing operator. -/

/-- The `legacy` record of a user result on the nested wire shape. -/
structure RawUserLegacy where
  name : String
  screen_name : String
deriving DecidableEq, Repr

/-- One element of the `core.user_results` chain. -/
structure RawUserResult where
  legacy : RawUserLegacy
deriving DecidableEq, Repr

/-- The `user_results` record of the nested wire shape. -/
structure RawUserResults where
  result : Option RawUserResult
deriving DecidableEq, Repr

/-- The `core` record of the nested wire shape. -/
structure RawCore where
  user_results : Option RawUserResults
deriving DecidableEq, Repr

/-- The `entities` record of the legacy wire shape. -/
structure RawEntities where
  hashtags : List String
  user_mentions : List String
  media : Option (List Media)
  urls : List String
deriving DecidableEq, Repr

/-- The `legacy` record of a raw timeline entry. -/
structure RawLegacy where
  full_text : String
  in_reply_to_status_id_str : Option String
  created_at : String
  user_id_str : String
  conversation_id_str : String
  entities : RawEntities
deriving DecidableEq, Repr

/-- A raw timeline entry as returned by the remote
`fetchHomeTimeline` call, carrying both possible wire shapes.
`typename` models the `__typename` discriminator. -/
structure RawTweet where
  typename : Option String := none
  rest_id : String
  name : Option String := none
  username : Option String := none
  text : Option String := none
  inReplyToStatusId : Option String := none
  createdAt : Option String := none
  userId : Option String := none
  conversationId : Option String := none
  hashtags : Option (List String) := none
  mentions : Option (List String) := none
  photos : Option (List Media) := none
  urls : Option (List String) := none
  videos : Option (List Media) := none
  legacy : Option RawLegacy := none
  core : Option RawCore := none
deriving DecidableEq, Repr

/-- The JS nullish-coalescing operator `a ?? b`: the left operand when it
is neither `null` nor `undefined`, otherwise the right operand. -/
def coalesce {α : Type} (a b : Option α) : Option α :=
  match a with
  | some v => some v
  | none => b

/-- Embeds the mapping body of `fetchHomeTimeline` (base.ts lines
330-364): every logical field prefers the flattened position and falls
back to the nested legacy path via `??`; `photos` and `videos` further
default to `[]` and filter the legacy media list by type. -/
def normalizeTweet (t : RawTweet) : Tweet :=
  { id := t.rest_id
    name := coalesce t.name
      (((t.core.bind RawCore.user_results).bind RawUserResults.result).map
        (fun r => r.legacy.name))
    username := coalesce t.username
      (((t.core.bind RawCore.user_results).bind RawUserResults.result).map
        (fun r => r.legacy.screen_name))
    text := coalesce t.text (t.legacy.map RawLegacy.full_text)
    inReplyToStatusId := coalesce t.inReplyToStatusId
      (t.legacy.bind RawLegacy.in_reply_to_status_id_str)
    createdAt := coalesce t.createdAt (t.legacy.map RawLegacy.created_at)
    userId := coalesce t.userId (t.legacy.map RawLegacy.user_id_str)
    conversationId := coalesce t.conversationId
      (t.legacy.map RawLegacy.conversation_id_str)
    hashtags := coalesce t.hashtags (t.legacy.map (fun l => l.entities.hashtags))
    mentions := coalesce t.mentions (t.legacy.map (fun l => l.entities.user_mentions))
    photos :=
      (coalesce t.photos
        ((t.legacy.bind (fun l => l.entities.media)).map
          (fun ms => ms.filter (fun m => m.type == "photo")))).getD []
    thread := []
    urls := coalesce t.urls (t.legacy.map (fun l => l.entities.urls))
    videos :=
      (coalesce t.videos
        ((t.legacy.bind (fun l => l.entities.media)).map
          (fun ms => ms.filter (fun m => m.type == "video")))).getD []
    permanentUrl := none
    timestamp := none }

/-- Embeds `fetchHomeTimeline` (base.ts lines 320-370) applied to the raw
list returned by the remote call: entries whose `__typename` is
`TweetWithVisibilityResults` are dropped, the rest are normalized. -/
def fetchHomeTimeline (homeTimeline : List RawTweet) : List Tweet :=
  (homeTimeline.filter
      (fun t => t.typename != some "TweetWithVisibilityResults")).map
    normalizeTweet

/-- C5: confirmed, stated for the `text` field of the example and for the
`username` field with the deeper legacy chain.  When the flattened field
is present the normalizer produces it, whatever conflicting value the
legacy shape carries; the legacy path is consulted only when the flattened
field is absent. -/
theorem normalizeTweet_prefers_flattened (t : RawTweet) :
    (∀ v, t.text = some v → (normalizeTweet t).text = some v) ∧
    (t.text = none →
      (normalizeTweet t).text = t.legacy.map RawLegacy.full_text) ∧
    (∀ v, t.username = some v → (normalizeTweet t).username = some v) ∧
    (t.username = none →
      (normalizeTweet t).username
        = ((t.core.bind RawCore.user_results).bind RawUserResults.result).map
            (fun r => r.legacy.screen_name)) := by
  refine ⟨?_, ?_, ?_, ?_⟩ <;> intro h <;>
    simp_all [normalizeTweet, coalesce]

/-- A raw entry carrying both wire shapes with conflicting `text` values. -/
def conflictingRawTweet : RawTweet :=
  { rest_id := "7"
    text := some "flattened text"
    legacy := some
      { full_text := "legacy text"
        in_reply_to_status_id_str := none
        created_at := "now"
        user_id_str := "u7"
        conversation_id_str := "c7"
        entities := { hashtags := [], user_mentions := [], media := none, urls := [] } } }

/-- Witness for C5: on the conflicting entry the flattened `text` wins,
and with the flattened `text` removed the legacy value is produced. -/
theorem normalizeTweet_prefers_flattened_witness :
    (normalizeTweet conflictingRawTweet).text = some "flattened text" ∧
    (normalizeTweet { conflictingRawTweet with text := none }).text
      = some "legacy text" :=
  ⟨(normalizeTweet_prefers_flattened conflictingRawTweet).1 "flattened text" rfl,
   by
    have h := (normalizeTweet_prefers_flattened
      { conflictingRawTweet with text := none }).2.1 rfl
    simpa [conflictingRawTweet] using h⟩

/-- C10: confirmed.  Every tweet returned by `fetchHomeTimeline` is the
normalization of some raw entry whose `__typename` is not
`TweetWithVisibilityResults`; such entries are dropped before
normalization, the output is never longer than the raw response, and on
some inputs it is strictly shorter. -/
theorem fetchHomeTimeline_drops_visibility_results (raw : List RawTweet) :
    (∀ x ∈ fetchHomeTimeline raw,
      ∃ r, r ∈ raw ∧ r.typename ≠ some "TweetWithVisibilityResults" ∧
        x = normalizeTweet r) ∧
    (fetchHomeTimeline raw).length ≤ raw.length ∧
    (∃ l, (fetchHomeTimeline l).length < l.length) := by
  refine ⟨?_, ?_, ?_⟩
  · intro x hx
    simp only [fetchHomeTimeline, List.mem_map, List.mem_filter] at hx
    obtain ⟨r, ⟨hmem, hty⟩, hx⟩ := hx
    refine ⟨r, hmem, ?_, hx.symm⟩
    simpa using hty
  · calc (fetchHomeTimeline raw).length
        = (raw.filter (fun t => t.typename != some "TweetWithVisibilityResults")).length := by
          simp [fetchHomeTimeline]
      _ ≤ raw.length := List.length_filter_le _ _
  · exact ⟨[{ rest_id := "9", typename := some "TweetWithVisibilityResults" }], by decide⟩

/-- A raw response with one visible and one visibility-restricted entry. -/
def rawPairSample : List RawTweet :=
  [{ rest_id := "10", typename := some "Tweet", text := some "kept" },
   { rest_id := "11", typename := some "TweetWithVisibilityResults",
     text := some "dropped" }]

/-- Witness for C10 at the two-entry raw response: the surviving output
element comes from the visible entry, and the output is strictly shorter
than the raw response. -/
theorem fetchHomeTimeline_drops_visibility_results_witness :
    (∃ r, r ∈ rawPairSample ∧ r.typename ≠ some "TweetWithVisibilityResults" ∧
      normalizeTweet { rest_id := "10", typename := some "Tweet", text := some "kept" }
        = normalizeTweet r) ∧
    (fetchHomeTimeline rawPairSample).length ≤ rawPairSample.length := by
  refine ⟨(fetchHomeTimeline_drops_visibility_results rawPairSample).1 _ ?_,
    (fetchHomeTimeline_drops_visibility_results rawPairSample).2.1⟩
  decide

/-! ## Search fetch with graceful degradation (`fetchSearchTweets`,
base.ts lines 372-407)

The remote call is raced against a 10-second timer whose promise resolves
`{ tweets: [] }`; the race is submitted through the request queue, whose
`add` rejects the caller's promise when the submitted operation rejects.
Both an inner and an outer `try`/`catch` convert any rejection into the
empty result.  The behaviour of the remote call is passed in as an
outcome. -/

/-- The `QueryTweetsResponse` shape: the list of result tweets. -/
structure QueryTweetsResponse where
  tweets : List Tweet
deriving DecidableEq, Repr

/-- Behaviour of the underlying remote search call: it resolves (possibly
with a nullish value), it rejects, or it fails to settle within the
10-second timeout so the timer wins the race. -/
inductive SearchCallOutcome
| value (r : Option QueryTweetsResponse)
| throws (msg : String)
| hangs
deriving DecidableEq, Repr

/-- Result of `requestQueue.add(() => Promise.race([remoteCall,
timeoutPromise]))` (base.ts lines 381-397): the timer resolves the empty
result on a stalled call; a rejection of the remote call rejects the
caller's promise. -/
def searchRace (o : SearchCallOutcome) : Except String (Option QueryTweetsResponse) :=
  match o with
  | SearchCallOutcome.value r => Except.ok r
  | SearchCallOutcome.throws msg => Except.error msg
  | SearchCallOutcome.hangs => Except.ok (some { tweets := [] })

/-- Embeds `fetchSearchTweets` (base.ts lines 372-407): the raced call's
nullish result is defaulted to `{ tweets: [] }`, the inner `catch` maps a
rejection to `{ tweets: [] }`, and the outer `catch` does the same for
anything escaping the inner block. -/
def fetchSearchTweets (o : SearchCallOutcome) : Except String QueryTweetsResponse :=
  let inner : Except String QueryTweetsResponse :=
    match searchRace o with
    | Except.ok r => Except.ok (r.getD { tweets := [] })
    | Except.error _ => Except.ok { tweets := [] }
  match inner with
  | Except.ok r => Except.ok r
  | Except.error _ => Except.ok { tweets := [] }

/-- C6: confirmed.  For every behaviour of the remote search call,
`fetchSearchTweets` returns normally (never raises), and when the remote
call rejects or stalls past the timeout the result is the empty set
`{ tweets := [] }`, so reconciliation proceeds with zero novel items. -/
theorem fetchSearchTweets_never_raises (o : SearchCallOutcome) :
    (∃ r, fetchSearchTweets o = Except.ok r) ∧
    (∀ msg, fetchSearchTweets (SearchCallOutcome.throws msg)
      = Except.ok { tweets := [] }) ∧
    fetchSearchTweets SearchCallOutcome.hangs = Except.ok { tweets := [] } := by
  refine ⟨?_, fun msg => rfl, rfl⟩
  cases o with
  | value r => cases r <;> exact ⟨_, rfl⟩
  | throws msg => exact ⟨_, rfl⟩
  | hangs => exact ⟨_, rfl⟩

/-! ## Bootstrap tail (`ClientBase` constructor, base.ts lines 291-317)

After login is confirmed, the constructor resolves the account's user id
through the request queue; the submitted operation catches its own remote
error and returns `null`.  A falsy user id (null, or the empty string,
since `if (!userId)` uses JS truthiness) logs an error and returns from
the bootstrap closure: `populateTimeline` and `onReady` are never
reached, and nothing retries the resolution. -/

/-- Behaviour of the remote `getUserIdByScreenName` call. -/
inductive ResolveOutcome
| value (id : String)
| throws (msg : String)
deriving DecidableEq, Repr

/-- The operation submitted to the queue at base.ts lines 291-302: the
remote error is caught and `null` is returned. -/
def resolveUserId (o : ResolveOutcome) : Option String :=
  match o with
  | ResolveOutcome.value s => some s
  | ResolveOutcome.throws _ => none

/-- JS truthiness test `!userId` for a nullable string: `null`/`undefined`
and the empty string are falsy. -/
def jsFalsy (s : Option String) : Bool :=
  match s with
  | none => true
  | some v => v.isEmpty

/-- Observable result of the bootstrap tail. -/
structure BootstrapTail where
  twitterUserId : Option String
  ranPopulateTimeline : Bool
  ranOnReady : Bool
  loggedFailure : Bool
deriving DecidableEq, Repr

/-- Embeds base.ts lines 291-312: resolve the user id through the queue;
if it is falsy, log the failure and return, otherwise store it, run
`populateTimeline` and then `onReady`. -/
def bootstrapAfterLogin (o : ResolveOutcome) : BootstrapTail :=
  let userId := resolveUserId o
  if jsFalsy userId then
    { twitterUserId := none
      ranPopulateTimeline := false
      ranOnReady := false
      loggedFailure := true }
  else
    { twitterUserId := userId
      ranPopulateTimeline := true
      ranOnReady := true
      loggedFailure := false }

/-- C7: confirmed.  Whenever resolving the authenticated account's
identifier fails — the remote call throws (mapped to `null` by the
operation's own catch) or yields no identifier — the bootstrap attempt
logs the failure and terminates: `populateTimeline` does not run,
`onReady` is never reached, and no retry occurs (the tail is a single
straight-line pass). -/
theorem bootstrap_resolution_failure_terminal (o : ResolveOutcome)
    (h : jsFalsy (resolveUserId o) = true) :
    bootstrapAfterLogin o
      = { twitterUserId := none
          ranPopulateTimeline := false
          ranOnReady := false
          loggedFailure := true } := by
  simp [bootstrapAfterLogin, h]

/-- Witness for C7 at a concrete failing resolution. -/
theorem bootstrap_resolution_failure_terminal_witness :
    bootstrapAfterLogin (ResolveOutcome.throws "rate limited")
      = { twitterUserId := none
          ranPopulateTimeline := false
          ranOnReady := false
          loggedFailure := true } :=
  bootstrap_resolution_failure_terminal (ResolveOutcome.throws "rate limited") rfl

/-! ## Timeline reconciliation (`populateTimeline`, base.ts lines 409-591)

The pass either resumes from the snapshot file `timeline_cache.json` or
performs a fresh search fetch.  The durable record store is modelled as a
list of memories; `stringToUuid` is the deterministic id-derivation hash
of `core/uuid.ts`, modelled as an injective tagging whose outputs are UUID
strings and therefore distinct from raw tweet id strings.  The snapshot
contents and the result of the fresh search fetch are passed in as
values. -/

/-- A durable record in the external memory store. -/
structure MemoryRecord where
  id : String
  userId : String
  roomId : String
  text : Option String
  createdAt : Option Nat
deriving DecidableEq, Repr

/-- Deterministic string-to-UUID derivation (`stringToUuid`), modelled as
an injective tag: equal inputs give equal outputs, distinct inputs give
distinct outputs, and every output carries the tag, so a derived UUID
never coincides with a raw tweet id. -/
def stringToUuid (s : String) : String :=
  "uuid-" ++ s

/-- Embeds `messageManager.getMemoriesByRoomIds`: the records whose room
id is among the requested ones. -/
def getMemoriesByRoomIds (db : List MemoryRecord) (roomIds : List String) :
    List MemoryRecord :=
  db.filter (fun m => roomIds.contains m.roomId)

/-- Embeds `messageManager.getMemoryById`. -/
def getMemoryById (db : List MemoryRecord) (id : String) : Option MemoryRecord :=
  db.find? (fun m => m.id == id)

/-- Inserts an id into a JS `Set` modelled as a duplicate-free list in
insertion order. -/
def insertUnique (l : List String) (x : String) : List String :=
  if l.contains x then l else l ++ [x]

/-- The record created for a tweet (both branches create the same record
shape: key derived from the tweet id and the agent id, room derived from
the conversation id alone, author mapped to the agent when it is the
authenticated user, original creation time preserved). -/
def recordOfTweet (agentId twitterUserId : String) (t : Tweet) : MemoryRecord :=
  { id := stringToUuid (t.id ++ "-" ++ agentId)
    userId :=
      if t.userId == some twitterUserId then agentId
      else stringToUuid (t.userId.getD "undefined")
    roomId := stringToUuid (t.conversationId.getD ("default-room-" ++ agentId))
    text := t.text
    createdAt := t.timestamp.map (fun ts => ts * 1000) }

/-- The save loop of the snapshot branch (base.ts lines 445-495): records
are created one by one, but the loop breaks out entirely at the first
tweet whose derived key already has a record (`getMemoryById` hit). -/
def savedLoop (agentId twitterUserId : String) :
    List MemoryRecord → List String → List Tweet → List MemoryRecord × List String
| db, created, [] => (db, created)
| db, created, t :: rest =>
  let memId := stringToUuid (t.id ++ "-" ++ agentId)
  match getMemoryById db memId with
  | some _ => (db, created)
  | none =>
    savedLoop agentId twitterUserId
      (db ++ [recordOfTweet agentId twitterUserId t])
      (created ++ [memId]) rest

/-- The save loop of the fresh-fetch branch (base.ts lines 552-587): every
tweet that survived the novelty filter gets a record; there is no
short-circuit check. -/
def freshSaveAll (agentId twitterUserId : String) :
    List MemoryRecord → List String → List Tweet → List MemoryRecord × List String
| db, created, [] => (db, created)
| db, created, t :: rest =>
  freshSaveAll agentId twitterUserId
    (db ++ [recordOfTweet agentId twitterUserId t])
    (created ++ [stringToUuid (t.id ++ "-" ++ agentId)]) rest

/-- Observable result of a `populateTimeline` pass. -/
structure PopulateResult where
  db : List MemoryRecord
  createdIds : List String
  tookCachedBranch : Bool
  fetchedRemote : Bool
  snapshotWritten : Option (List Tweet)
deriving DecidableEq, Repr

/-- The fresh-fetch path of `populateTimeline` (base.ts lines 504-591):
the candidate ids are deduplicated into a set, their derived UUIDs are
used as the ROOM ids of a `getMemoriesByRoomIds` query, the ROOM ids of
the returned records form the existing-id set, candidates whose derived
key is in that set are dropped, the rest are saved, and the full candidate
list is written as the new snapshot. -/
def populateFresh (agentId twitterUserId : String) (db : List MemoryRecord)
    (searchTweets : List Tweet) : PopulateResult :=
  let allTweets := searchTweets
  let tweetIdsToCheck := (allTweets.map (fun t => t.id)).foldl insertUnique []
  let tweetUuids := tweetIdsToCheck.map (fun id => stringToUuid (id ++ "-" ++ agentId))
  let existingMemories := getMemoriesByRoomIds db tweetUuids
  let existingMemoryIds := existingMemories.map (fun m => m.roomId)
  let tweetsToSave := allTweets.filter
    (fun t => !(existingMemoryIds.contains (stringToUuid (t.id ++ "-" ++ agentId))))
  let saved := freshSaveAll agentId twitterUserId db [] tweetsToSave
  { db := saved.1
    createdIds := saved.2
    tookCachedBranch := false
    fetchedRemote := true
    snapshotWritten := some allTweets }

/-- Embeds `populateTimeline` (base.ts lines 409-591).  With a snapshot
present, the store is queried for rooms derived as
`stringToUuid(conversationId + "-" + agentId)`, the ids of the returned
records are collected, and the snapshot branch is taken only if some
snapshot tweet's RAW id occurs among those record ids
(`someCachedTweetsExist`); the branch then saves the snapshot tweets whose
raw id is not among the record ids, breaking at the first derived-key hit.
Otherwise the pass falls through to the fresh fetch. -/
def populateTimeline (agentId twitterUserId : String) (db : List MemoryRecord)
    (snapshot : Option (List Tweet)) (searchTweets : List Tweet) : PopulateResult :=
  match snapshot with
  | some cachedResults =>
    let roomIds := cachedResults.map
      (fun t => stringToUuid (t.conversationId.getD "undefined" ++ "-" ++ agentId))
    let existingMemories := getMemoriesByRoomIds db roomIds
    let existingMemoryIds := existingMemories.map (fun m => m.id)
    let someCachedTweetsExist :=
      cachedResults.any (fun t => existingMemoryIds.contains t.id)
    if someCachedTweetsExist then
      let tweetsToSave := cachedResults.filter
        (fun t => !(existingMemoryIds.contains t.id))
      let saved := savedLoop agentId twitterUserId db [] tweetsToSave
      { db := saved.1
        createdIds := saved.2
        tookCachedBranch := true
        fetchedRemote := false
        snapshotWritten := none }
    else
      populateFresh agentId twitterUserId db searchTweets
  | none => populateFresh agentId twitterUserId db searchTweets

/-- First snapshot tweet of the resumed-run scenario. -/
def snapTweet1 : Tweet :=
  { id := "101", conversationId := some "c1", userId := some "u1",
    username := some "alice", name := some "Alice", text := some "one",
    timestamp := some 1 }

/-- Second snapshot tweet of the resumed-run scenario. -/
def snapTweet2 : Tweet :=
  { id := "102", conversationId := some "c2", userId := some "u2",
    username := some "bob", name := some "Bob", text := some "two",
    timestamp := some 2 }

/-- Third snapshot tweet of the resumed-run scenario. -/
def snapTweet3 : Tweet :=
  { id := "103", conversationId := some "c3", userId := some "u3",
    username := some "carol", name := some "Carol", text := some "three",
    timestamp := some 3 }

/-- Durable store holding exactly the record that a prior pass of this
code created for the first snapshot tweet. -/
def resumedDb : List MemoryRecord :=
  [recordOfTweet "agent1" "tw1" snapTweet1]

/-- C3: the claim fails on the code.  With a snapshot whose first tweet is
already ingested under its derived key (the store holds the very record
this code creates), resumed reconciliation does NOT create records for
only the non-ingested suffix: the store is queried for rooms
`stringToUuid(conversationId + "-" + agentId)` although records are stored
under `stringToUuid(conversationId)`, and ingestedness is tested by
comparing raw tweet ids against record UUIDs, so `someCachedTweetsExist`
is false, the snapshot branch is never taken, and the pass falls through
to a fresh remote fetch (here yielding nothing) — creating no records at
all instead of records for the suffix. -/
theorem populateTimeline_resume_branch_unreachable :
    getMemoryById resumedDb (stringToUuid ("101-" ++ "agent1"))
      = some (recordOfTweet "agent1" "tw1" snapTweet1) ∧
    (populateTimeline "agent1" "tw1" resumedDb
        (some [snapTweet1, snapTweet2, snapTweet3]) []).tookCachedBranch = false ∧
    (populateTimeline "agent1" "tw1" resumedDb
        (some [snapTweet1, snapTweet2, snapTweet3]) []).fetchedRemote = true ∧
    (populateTimeline "agent1" "tw1" resumedDb
        (some [snapTweet1, snapTweet2, snapTweet3]) []).createdIds = [] ∧
    (populateTimeline "agent1" "tw1" resumedDb
        (some [snapTweet1, snapTweet2, snapTweet3]) []).createdIds
      ≠ [stringToUuid ("102-" ++ "agent1"), stringToUuid ("103-" ++ "agent1")] := by
  refine ⟨?_, ?_, ?_, ?_, ?_⟩ <;> decide
